import Mathlib

/-!
Verification of the TPMS decoding engine of flipperzero-tpms against its
specification. The two protocol instances, Ford (protocols/ford.c) and
SMD3MA4 (protocols/SMD3MA4.c), are embedded shallowly: the per-edge `feed`
entry point becomes a pure function from a decoder state and one pulse edge
to the next state together with the optionally emitted record (the callback
invocation), machine integers become Nat with explicit reduction modulo the
width where the C type can wrap, and the float fields of the generic record
are modelled as exact rationals.
-/

/-- Modelled from the spec: the DURATION_DIFF macro of lib/subghz/blocks/math.h
is not under src/. Per spec section 4.1 a duration matches a class when the
absolute difference to the nominal period is below tolerance, so the macro is
the absolute difference of two unsigned durations. -/
def DURATION_DIFF (x y : Nat) : Nat :=
  if x < y then y - x else x - y

/-- ManchesterEvent of lib/toolbox/manchester_decoder.h: one classified pulse,
or the resynchronisation event on an out-of-tolerance duration. -/
inductive ManchesterEvent where
  | shortLow
  | shortHigh
  | longLow
  | longHigh
  | reset
  deriving DecidableEq

/-- ManchesterState of lib/toolbox/manchester_decoder.h: the four-state
half-bit cursor of the Manchester-I recoverer. The numeric value of
ManchesterStateStart1 in the firmware header is 0, so a zero-initialised
decoder starts in start1. -/
inductive ManchesterState where
  | start1
  | mid1
  | mid0
  | start0
  deriving DecidableEq

/-- Modelled from the spec: the transition table of manchester_advance in
lib/toolbox/manchester_decoder.c is not under src/. It is the RC5 half-bit
pairing machine of spec section 4.2 (the SMD3MA4 source comments link the
same RC5 state diagram); an entry that stays on the same state marks an
illegal transition and is resolved to the resynchronised state by
manchester_advance below. -/
def manchesterTransition : ManchesterState → ManchesterEvent → ManchesterState
  | .start1, .shortLow => .mid1
  | .start1, _ => .start1
  | .mid1, .shortHigh => .start1
  | .mid1, .longHigh => .mid0
  | .mid1, _ => .mid1
  | .mid0, .shortLow => .start0
  | .mid0, .longLow => .mid1
  | .mid0, _ => .mid0
  | .start0, .shortHigh => .mid0
  | .start0, _ => .start0

/-- Modelled from the spec: manchester_advance of
lib/toolbox/manchester_decoder.c is not under src/. It advances the half-bit
cursor on one classified symbol and reports the recovered data bit when a
full bit completes (spec section 4.2: two half-bit symbols compose one data
bit; an illegal transition yields no bit and resynchronises the cursor). -/
def manchester_advance (state : ManchesterState) (event : ManchesterEvent) :
    ManchesterState × Option Bool :=
  match event with
  | .reset => (.mid1, none)
  | _ =>
    let t := manchesterTransition state event
    if t = state then (.mid1, none)
    else
      match t with
      | .mid0 => (.mid0, some false)
      | .mid1 => (.mid1, some true)
      | _ => (t, none)

/-- SubGhzBlockConst of lib/subghz/blocks/const.h: the per-protocol timing
profile. -/
structure SubGhzBlockConst where
  te_short : Nat
  te_long : Nat
  te_delta : Nat
  min_count_bit_for_found : Nat
  deriving DecidableEq

/-- tpms_protocol_ford_const of protocols/ford.c. -/
def tpms_protocol_ford_const : SubGhzBlockConst :=
  { te_short := 52, te_long := 104, te_delta := 150, min_count_bit_for_found := 64 }

/-- tpms_protocol_SMD3MA4_const of protocols/SMD3MA4.c. -/
def tpms_protocol_SMD3MA4_const : SubGhzBlockConst :=
  { te_short := 120, te_long := 240, te_delta := 55, min_count_bit_for_found := 33 }

/-- PREAMBLE_BITS_LEN of protocols/ford.c. -/
def ford_PREAMBLE_BITS_LEN : Nat := 16

/-- PREAMBLE_BITS_LEN of protocols/SMD3MA4.c. -/
def SMD3MA4_PREAMBLE_BITS_LEN : Nat := 3

/-- Modelled from the spec: the TPMS_NO_BATT marker of tpms_generic.h is not
under src/; it is the distinguished value the analyzers store when battery
state is unsupported (spec section 4.6). Its concrete numeric value is
immaterial to every claim. -/
def TPMS_NO_BATT : Nat := 255

/-- TPMSBlockGeneric of tpms_generic.h, restricted to the fields the studied
code reads or writes. data is the 64-bit raw frame register, id a 32-bit
sensor id, battery_low an 8-bit marker; the float fields temperature and
pressure are modelled as exact rationals (IEEE rounding is out of scope of
this embedding). -/
structure TPMSBlockGeneric where
  data : Nat
  data_count_bit : Nat
  id : Nat
  battery_low : Nat
  temperature : ℚ
  pressure : ℚ
  deriving DecidableEq

/-- The zero-initialised generic record: furi malloc returns zeroed memory,
so a freshly allocated decoder starts from this record. -/
def genericZero : TPMSBlockGeneric :=
  { data := 0, data_count_bit := 0, id := 0, battery_low := 0,
    temperature := 0, pressure := 0 }

/-- FordDecoderStep of protocols/ford.c. -/
inductive FordDecoderStep where
  | Reset
  | CheckPreamble
  | DecoderData
  | SaveDuration
  | CheckDuration
  deriving DecidableEq

/-- TPMSProtocolDecoderFord of protocols/ford.c together with the decode
fields of its embedded SubGhzBlockDecoder. has_callback models whether a
record sink is registered on the base (base.callback is non-null). -/
structure TPMSProtocolDecoderFord where
  parser_step : FordDecoderStep
  decode_data : Nat
  decode_count_bit : Nat
  manchester_saved_state : ManchesterState
  header_count : Nat
  generic : TPMSBlockGeneric
  has_callback : Bool
  deriving DecidableEq

/-- tpms_protocol_decoder_ford_alloc of protocols/ford.c: furi malloc returns
zeroed memory, so every field starts zero (parser_step FordDecoderStepReset,
manchester state start1, both of numeric value 0). -/
def fordInit (cb : Bool) : TPMSProtocolDecoderFord :=
  { parser_step := .Reset, decode_data := 0, decode_count_bit := 0,
    manchester_saved_state := .start1, header_count := 0,
    generic := genericZero, has_callback := cb }

/-- tpms_protocol_decoder_ford_reset of protocols/ford.c: it assigns only
parser_step. -/
def tpms_protocol_decoder_ford_reset (s : TPMSProtocolDecoderFord) :
    TPMSProtocolDecoderFord :=
  { s with parser_step := .Reset }

/-- tpms_protocol_ford_check_crc of protocols/ford.c. The C function reads
only instance->decoder.decode_data, so the embedding takes that register
directly. It rejects an all-zero register, then compares the low eight bits
of the sum of bytes 0..6 of the in-memory little-endian representation
(byte i holds bits 8i+7..8i of the register; the target MCU is little
endian) against byte 7. -/
def tpms_protocol_ford_check_crc (decode_data : Nat) : Bool :=
  if decode_data = 0 then false
  else
    let b : Nat → Nat := fun i => decode_data / 2 ^ (8 * i) % 256
    (b 0 + b 1 + b 2 + b 3 + b 4 + b 5 + b 6) % 256 = b 7

/-- tpms_protocol_ford_analyze of protocols/ford.c. The subtraction forming
temperature is performed on uint64_t, hence the explicit wrap-around; the
float products are modelled exactly (0.25f is 1/4 and the double literal
0.069 is taken at its decimal value 69/1000). -/
def tpms_protocol_ford_analyze (g : TPMSBlockGeneric) : TPMSBlockGeneric :=
  { g with
    id := g.data / 2 ^ 32 % 2 ^ 32
    battery_low := TPMS_NO_BATT
    temperature := ((g.data / 2 ^ 24 % 256 + 2 ^ 64 - 56) % 2 ^ 64 : Nat)
    pressure := (g.data / 2 ^ 8 % 256 : Nat) * (1 / 4) * (69 / 1000) }

/-- level_and_duration_to_event of protocols/ford.c: long wins when the
duration is within te_delta of te_long, then short is tried, otherwise the
Manchester resynchronisation event results. -/
def ford_level_and_duration_to_event (level : Bool) (duration : Nat) :
    ManchesterEvent :=
  if DURATION_DIFF duration tpms_protocol_ford_const.te_long <
      tpms_protocol_ford_const.te_delta then
    if level then .longHigh else .longLow
  else if DURATION_DIFF duration tpms_protocol_ford_const.te_short <
      tpms_protocol_ford_const.te_delta then
    if level then .shortHigh else .shortLow
  else .reset

/-- The switch statement of tpms_protocol_decoder_ford_feed of
protocols/ford.c, entered with the parser step as left by the preceding
Manchester block and, when a bit was recovered, that (already inverted) bit.
decode_count_bit and header_count are uint16_t and decode_data uint64_t,
hence the explicit wraps (subghz_protocol_blocks_add_bit of
lib/subghz/blocks/decoder.c, modelled from the spec section 4.4: the bit is
appended as the new least significant bit and the count increments). -/
def ford_feed_switch (s : TPMSProtocolDecoderFord) (level : Bool)
    (duration : Nat) (bit : Bool) :
    TPMSProtocolDecoderFord × Option TPMSBlockGeneric :=
  match s.parser_step with
  | .Reset =>
    if level = false ∧
        DURATION_DIFF duration (tpms_protocol_ford_const.te_long * 2) <
          tpms_protocol_ford_const.te_delta then
      ({ s with
          parser_step := .CheckPreamble
          decode_data := 0
          decode_count_bit := 0
          manchester_saved_state := .start1 }, none)
    else (s, none)
  | .CheckPreamble =>
    if bit then ({ s with parser_step := .Reset }, none)
    else
      let hc := (s.header_count + 1) % 2 ^ 16
      if hc = ford_PREAMBLE_BITS_LEN then
        ({ s with header_count := hc, parser_step := .DecoderData }, none)
      else ({ s with header_count := hc }, none)
  | .DecoderData =>
    let dd := (s.decode_data * 2 + (if bit then 1 else 0)) % 2 ^ 64
    let dc := (s.decode_count_bit + 1) % 2 ^ 16
    if dc = tpms_protocol_ford_const.min_count_bit_for_found then
      if tpms_protocol_ford_check_crc dd then
        let g := tpms_protocol_ford_analyze
          { s.generic with data := dd, data_count_bit := dc }
        ({ s with
            decode_data := dd
            decode_count_bit := dc
            generic := g
            parser_step := .Reset },
          if s.has_callback then some g else none)
      else
        ({ s with
            decode_data := dd
            decode_count_bit := dc
            parser_step := .Reset }, none)
    else ({ s with decode_data := dd, decode_count_bit := dc }, none)
  | _ => (s, none)

/-- tpms_protocol_decoder_ford_feed of protocols/ford.c. Outside the Reset
step the edge is classified first: an out-of-tolerance edge forces the
parser step to Reset and the switch then runs on that fresh Reset step (the
same edge is immediately tested as a sync-gap candidate); otherwise the
Manchester machine advances and, when no full bit is recovered, the call
returns early; a recovered bit is inverted (Manchester II signal, Manchester
I decoder) before the switch consumes it. The second component is the record
passed to the registered callback, none when no record is emitted. -/
def tpms_protocol_decoder_ford_feed (s : TPMSProtocolDecoderFord)
    (level : Bool) (duration : Nat) :
    TPMSProtocolDecoderFord × Option TPMSBlockGeneric :=
  if s.parser_step = .Reset then
    ford_feed_switch s level duration false
  else if ford_level_and_duration_to_event level duration = .reset then
    ford_feed_switch { s with parser_step := .Reset } level duration false
  else
    match manchester_advance s.manchester_saved_state
        (ford_level_and_duration_to_event level duration) with
    | (ms, none) => ({ s with manchester_saved_state := ms }, none)
    | (ms, some b) =>
      ford_feed_switch { s with manchester_saved_state := ms } level
        duration (!b)

/-- SMD3MA4DecoderStep of protocols/SMD3MA4.c. -/
inductive SMD3MA4DecoderStep where
  | Reset
  | CheckPreamble
  | DecoderData
  | SaveDuration
  | CheckDuration
  deriving DecidableEq

/-- TPMSProtocolDecoderSMD3MA4 of protocols/SMD3MA4.c together with the
decode fields of its embedded SubGhzBlockDecoder. -/
structure TPMSProtocolDecoderSMD3MA4 where
  parser_step : SMD3MA4DecoderStep
  decode_data : Nat
  decode_count_bit : Nat
  manchester_saved_state : ManchesterState
  header_count : Nat
  generic : TPMSBlockGeneric
  has_callback : Bool
  deriving DecidableEq

/-- tpms_protocol_decoder_SMD3MA4_alloc of protocols/SMD3MA4.c: zeroed
memory, as for Ford. -/
def SMD3MA4Init (cb : Bool) : TPMSProtocolDecoderSMD3MA4 :=
  { parser_step := .Reset, decode_data := 0, decode_count_bit := 0,
    manchester_saved_state := .start1, header_count := 0,
    generic := genericZero, has_callback := cb }

/-- tpms_protocol_decoder_SMD3MA4_reset of protocols/SMD3MA4.c: it assigns
only parser_step. -/
def tpms_protocol_decoder_SMD3MA4_reset (s : TPMSProtocolDecoderSMD3MA4) :
    TPMSProtocolDecoderSMD3MA4 :=
  { s with parser_step := .Reset }

/-- tpms_protocol_SMD3MA4_analyze of protocols/SMD3MA4.c. The subtraction
forming pressure is performed on uint64_t, hence the explicit wrap-around;
the double literals 0.2 and 0.069 are taken at their decimal values. -/
def tpms_protocol_SMD3MA4_analyze (g : TPMSBlockGeneric) : TPMSBlockGeneric :=
  { g with
    id := g.data / 2 ^ 24 % 2 ^ 32
    battery_low := TPMS_NO_BATT
    temperature := (g.data / 2 ^ 6 % 256 : Nat)
    pressure := ((g.data / 2 ^ 5 % 256 + 2 ^ 64 - 32) % 2 ^ 64 : Nat) *
      (1 / 5) * (69 / 1000) }

/-- level_and_duration_to_event of protocols/SMD3MA4.c: same shape as the
Ford classifier, over the SMD3MA4 timing constants. -/
def SMD3MA4_level_and_duration_to_event (level : Bool) (duration : Nat) :
    ManchesterEvent :=
  if DURATION_DIFF duration tpms_protocol_SMD3MA4_const.te_long <
      tpms_protocol_SMD3MA4_const.te_delta then
    if level then .longHigh else .longLow
  else if DURATION_DIFF duration tpms_protocol_SMD3MA4_const.te_short <
      tpms_protocol_SMD3MA4_const.te_delta then
    if level then .shortHigh else .shortLow
  else .reset

/-- The switch statement of tpms_protocol_decoder_SMD3MA4_feed of
protocols/SMD3MA4.c. Unlike Ford, the Reset case waits for a HIGH start
pulse near twice te_long and also zeroes header_count, and the DecoderData
case runs no checksum: a completed 33-bit frame is accepted
unconditionally. -/
def SMD3MA4_feed_switch (s : TPMSProtocolDecoderSMD3MA4) (level : Bool)
    (duration : Nat) (bit : Bool) :
    TPMSProtocolDecoderSMD3MA4 × Option TPMSBlockGeneric :=
  match s.parser_step with
  | .Reset =>
    if level = true ∧
        DURATION_DIFF duration (tpms_protocol_SMD3MA4_const.te_long * 2) <
          tpms_protocol_SMD3MA4_const.te_delta then
      ({ s with
          parser_step := .CheckPreamble
          header_count := 0
          decode_data := 0
          decode_count_bit := 0
          manchester_saved_state := .start1 }, none)
    else (s, none)
  | .CheckPreamble =>
    if bit then ({ s with parser_step := .Reset }, none)
    else
      let hc := (s.header_count + 1) % 2 ^ 16
      if hc = SMD3MA4_PREAMBLE_BITS_LEN then
        ({ s with header_count := hc, parser_step := .DecoderData }, none)
      else ({ s with header_count := hc }, none)
  | .DecoderData =>
    let dd := (s.decode_data * 2 + (if bit then 1 else 0)) % 2 ^ 64
    let dc := (s.decode_count_bit + 1) % 2 ^ 16
    if dc = tpms_protocol_SMD3MA4_const.min_count_bit_for_found then
      let g := tpms_protocol_SMD3MA4_analyze
        { s.generic with data := dd, data_count_bit := dc }
      ({ s with
          decode_data := dd
          decode_count_bit := dc
          generic := g
          parser_step := .Reset },
        if s.has_callback then some g else none)
    else ({ s with decode_data := dd, decode_count_bit := dc }, none)
  | _ => (s, none)

/-- tpms_protocol_decoder_SMD3MA4_feed of protocols/SMD3MA4.c: same control
flow as the Ford feed, over the SMD3MA4 classifier and switch. -/
def tpms_protocol_decoder_SMD3MA4_feed (s : TPMSProtocolDecoderSMD3MA4)
    (level : Bool) (duration : Nat) :
    TPMSProtocolDecoderSMD3MA4 × Option TPMSBlockGeneric :=
  if s.parser_step = .Reset then
    SMD3MA4_feed_switch s level duration false
  else if SMD3MA4_level_and_duration_to_event level duration = .reset then
    SMD3MA4_feed_switch { s with parser_step := .Reset } level duration false
  else
    match manchester_advance s.manchester_saved_state
        (SMD3MA4_level_and_duration_to_event level duration) with
    | (ms, none) => ({ s with manchester_saved_state := ms }, none)
    | (ms, some b) =>
      SMD3MA4_feed_switch { s with manchester_saved_state := ms } level
        duration (!b)

/-- The Ford checksum as the spec and the packet comment of protocols/ford.c
state it: byte i of the frame in transmission order (the first transmitted
ID byte is byte 0, the last transmitted checksum byte is byte 7, the frame
being accumulated MSB first), and the sum of bytes 0..6 reduced modulo 256
must equal byte 7. -/
def ford_spec_checksum_ok (data : Nat) : Bool :=
  let tb : Nat → Nat := fun i => data / 2 ^ (8 * (7 - i)) % 256
  (tb 0 + tb 1 + tb 2 + tb 3 + tb 4 + tb 5 + tb 6) % 256 = tb 7

/-- The Ford pressure conversion as the spec states it: the PP byte occupies
bits 31..24 of the 64-bit frame and maps to p times 0.25 times 0.069 bar. -/
def ford_spec_pressure (data : Nat) : ℚ :=
  (data / 2 ^ 24 % 256 : Nat) * (1 / 4) * (69 / 1000)

/-- The Ford temperature conversion as the spec states it: the TT byte
occupies bits 23..16 of the 64-bit frame and maps to t minus 56 degrees. -/
def ford_spec_temperature (data : Nat) : ℚ :=
  ((data / 2 ^ 16 % 256 : Nat) : ℚ) - 56

/-- A Ford decoder state about to complete a 64-bit frame whose documented
checksum holds: 63 bits of the frame 0x0005000000000005 are accumulated and
the Manchester cursor sits in mid1, so a long high edge recovers the final
1 bit. -/
def c1State : TPMSProtocolDecoderFord :=
  { parser_step := .DecoderData, decode_data := 0x0002800000000002,
    decode_count_bit := 63, manchester_saved_state := .mid1,
    header_count := 16, generic := genericZero, has_callback := true }

/-- C1: the claim that the Ford decoder emits a record at 64 bits exactly
when the sum of transmission-order bytes 0..6 modulo 256 equals the last
transmitted byte fails on the code: the frame 0x0005000000000005 satisfies
that documented checksum, yet tpms_protocol_ford_check_crc sums the bytes of
the little-endian in-memory representation (the last seven transmitted bytes
against the first), rejects the frame, and the feed that completes it emits
nothing and falls back to Idle. -/
theorem C1_ford_checksum_byte_order_bug :
    ford_spec_checksum_ok 0x0005000000000005 = true ∧
    tpms_protocol_ford_check_crc 0x0005000000000005 = false ∧
    (tpms_protocol_decoder_ford_feed c1State true 104).1.decode_data =
      0x0005000000000005 ∧
    (tpms_protocol_decoder_ford_feed c1State true 104).1.decode_count_bit = 64 ∧
    (tpms_protocol_decoder_ford_feed c1State true 104).2 = none ∧
    (tpms_protocol_decoder_ford_feed c1State true 104).1.parser_step =
      FordDecoderStep.Reset := by
  refine ⟨by decide, by decide, by decide, by decide, by decide, by decide⟩

/-- The generic record holding a frame whose PP byte (bits 31..24) is 0x64
and whose other bytes are zero. -/
def c2Generic : TPMSBlockGeneric :=
  { genericZero with data := 0x0000000064000000 }

/-- C2: the claim fails on the code. On the frame whose PP byte is 0x64 the
spec (and the packet layout comment of the source) demand pressure
100 * 0.25 * 0.069 = 1.725 bar and temperature from the TT byte, but
tpms_protocol_ford_analyze reads pressure from bits 15..8 (the FF byte,
yielding 0) and temperature from bits 31..24 (the PP byte, yielding
100 - 56 = 44). -/
theorem C2_ford_field_offset_bug :
    (tpms_protocol_ford_analyze c2Generic).pressure = 0 ∧
    (tpms_protocol_ford_analyze c2Generic).temperature = 44 ∧
    ford_spec_pressure 0x0000000064000000 = 69 / 40 ∧
    (69 / 40 : ℚ) ≠ 0 := by
  refine ⟨?_, ?_, ?_, by norm_num⟩
  · norm_num [tpms_protocol_ford_analyze, c2Generic, genericZero]
  · norm_num [tpms_protocol_ford_analyze, c2Generic, genericZero]
  · norm_num [ford_spec_pressure]

/-- C3: the claim fails on the code. The SMD3MA4 frame carries no
temperature, yet tpms_protocol_SMD3MA4_analyze stores frame bits 13..6 in
the temperature field: two frames differing only in those bits produce two
different temperature values (171 and 0), so the field is fabricated from
frame bits, not a fixed unavailable marker. -/
theorem C3_SMD3MA4_temperature_fabricated :
    (tpms_protocol_SMD3MA4_analyze { genericZero with data := 0x2AC0 }).temperature
      = 171 ∧
    (tpms_protocol_SMD3MA4_analyze genericZero).temperature = 0 ∧
    (tpms_protocol_SMD3MA4_analyze { genericZero with data := 0x2AC0 }).temperature
      ≠ (tpms_protocol_SMD3MA4_analyze genericZero).temperature := by
  refine ⟨by norm_num [tpms_protocol_SMD3MA4_analyze, genericZero],
    by norm_num [tpms_protocol_SMD3MA4_analyze, genericZero], ?_⟩
  norm_num [tpms_protocol_SMD3MA4_analyze, genericZero]

/-- A Ford decoder state in Idle with a stale preamble counter, as left
behind by an earlier acquisition. -/
def c4State : TPMSProtocolDecoderFord :=
  { parser_step := .Reset, decode_data := 0xDEAD, decode_count_bit := 64,
    manchester_saved_state := .mid0, header_count := 7,
    generic := genericZero, has_callback := true }

/-- An SMD3MA4 decoder state in Idle with a stale preamble counter. -/
def c4SmdState : TPMSProtocolDecoderSMD3MA4 :=
  { parser_step := .Reset, decode_data := 0xDEAD, decode_count_bit := 10,
    manchester_saved_state := .mid0, header_count := 7,
    generic := genericZero, has_callback := true }

/-- C4: the claim fails on the Ford code. On the matching sync gap the Ford
decoder clears the frame buffer and the Manchester cursor but leaves
header_count untouched (here still 7 after the transition), while the
SMD3MA4 decoder zeroes it as the spec demands; so not every protocol zeroes
the preamble counter on the Idle to preamble transition. -/
theorem C4_ford_header_count_not_zeroed :
    (tpms_protocol_decoder_ford_feed c4State false 208).1.parser_step =
      FordDecoderStep.CheckPreamble ∧
    (tpms_protocol_decoder_ford_feed c4State false 208).1.header_count = 7 ∧
    (tpms_protocol_decoder_ford_feed c4State false 208).1.decode_data = 0 ∧
    (tpms_protocol_decoder_ford_feed c4State false 208).1.decode_count_bit = 0 ∧
    (tpms_protocol_decoder_ford_feed c4State false 208).1.manchester_saved_state =
      ManchesterState.start1 ∧
    (tpms_protocol_decoder_SMD3MA4_feed c4SmdState true 480).1.parser_step =
      SMD3MA4DecoderStep.CheckPreamble ∧
    (tpms_protocol_decoder_SMD3MA4_feed c4SmdState true 480).1.header_count = 0 := by
  refine ⟨by decide, by decide, by decide, by decide, by decide, by decide, by decide⟩

/-- C5 counterexample: the claim that every protocol leaves Idle exactly on
a low edge near twice the long period fails at a concrete input: the
SMD3MA4 decoder in Idle leaves on a HIGH 480 microsecond edge and stays in
Idle on the corresponding low edge. -/
theorem C5_SMD3MA4_leaves_idle_on_high_edge :
    (tpms_protocol_decoder_SMD3MA4_feed (SMD3MA4Init true) true 480).1.parser_step
      ≠ SMD3MA4DecoderStep.Reset ∧
    (tpms_protocol_decoder_SMD3MA4_feed (SMD3MA4Init true) false 480).1.parser_step
      = SMD3MA4DecoderStep.Reset := by
  refine ⟨by decide, by decide⟩

/-- A Ford decoder state mid-frame, used to exhibit that reset does not
clear the accumulation buffers. -/
def c6State : TPMSProtocolDecoderFord :=
  { parser_step := .DecoderData, decode_data := 3, decode_count_bit := 5,
    manchester_saved_state := .mid1, header_count := 16,
    generic := genericZero, has_callback := true }

/-- C6 counterexample: the claim that reset clears all buffers fails at a
concrete input: after tpms_protocol_decoder_ford_reset on a state holding 5
accumulated bits, the frame buffer still holds those bits (the function
assigns only parser_step). -/
theorem C6_reset_keeps_buffers :
    (tpms_protocol_decoder_ford_reset c6State).decode_count_bit = 5 ∧
    (tpms_protocol_decoder_ford_reset c6State).decode_data = 3 := by
  refine ⟨by decide, by decide⟩

/-- C6 amended: for every protocol and state, reset forces the phase to
Idle and calling it twice leaves exactly the state of calling it once; the
frame buffers are left unchanged rather than cleared (they are zeroed on
the next Idle to preamble transition). -/
theorem C6_reset_idle_and_idempotent (sf : TPMSProtocolDecoderFord)
    (ss : TPMSProtocolDecoderSMD3MA4) :
    (tpms_protocol_decoder_ford_reset sf).parser_step = FordDecoderStep.Reset ∧
    tpms_protocol_decoder_ford_reset (tpms_protocol_decoder_ford_reset sf) =
      tpms_protocol_decoder_ford_reset sf ∧
    (tpms_protocol_decoder_ford_reset sf).decode_data = sf.decode_data ∧
    (tpms_protocol_decoder_ford_reset sf).decode_count_bit = sf.decode_count_bit ∧
    (tpms_protocol_decoder_SMD3MA4_reset ss).parser_step =
      SMD3MA4DecoderStep.Reset ∧
    tpms_protocol_decoder_SMD3MA4_reset (tpms_protocol_decoder_SMD3MA4_reset ss) =
      tpms_protocol_decoder_SMD3MA4_reset ss ∧
    (tpms_protocol_decoder_SMD3MA4_reset ss).decode_data = ss.decode_data ∧
    (tpms_protocol_decoder_SMD3MA4_reset ss).decode_count_bit =
      ss.decode_count_bit :=
  ⟨rfl, rfl, rfl, rfl, rfl, rfl, rfl, rfl⟩

/-- C5 amended: while in Idle each decoder leaves for preamble acquisition
exactly on an edge near twice its long period bounded by its tolerance, the
Ford decoder on a LOW edge and the SMD3MA4 decoder on a HIGH edge (the
SMD3MA4 Reset case waits for the 480 microsecond start pulse); every other
edge received in Idle leaves the phase unchanged. -/
theorem C5_idle_exit_condition (sf : TPMSProtocolDecoderFord)
    (ss : TPMSProtocolDecoderSMD3MA4) (level : Bool) (duration : Nat)
    (hf : sf.parser_step = FordDecoderStep.Reset)
    (hs : ss.parser_step = SMD3MA4DecoderStep.Reset) :
    ((tpms_protocol_decoder_ford_feed sf level duration).1.parser_step ≠
        FordDecoderStep.Reset ↔
      level = false ∧
        DURATION_DIFF duration (tpms_protocol_ford_const.te_long * 2) <
          tpms_protocol_ford_const.te_delta) ∧
    ((tpms_protocol_decoder_SMD3MA4_feed ss level duration).1.parser_step ≠
        SMD3MA4DecoderStep.Reset ↔
      level = true ∧
        DURATION_DIFF duration (tpms_protocol_SMD3MA4_const.te_long * 2) <
          tpms_protocol_SMD3MA4_const.te_delta) := by
  constructor
  · simp only [tpms_protocol_decoder_ford_feed, ford_feed_switch, hf, if_pos]
    split_ifs with h
    · simp [h]
    · simp [h, hf]
  · simp only [tpms_protocol_decoder_SMD3MA4_feed, SMD3MA4_feed_switch, hs, if_pos]
    split_ifs with h
    · simp [h]
    · simp [h, hs]

/-- C5 witness: the Ford decoder in the freshly allocated Idle state leaves
Idle on the low 208 microsecond gap. -/
theorem C5_idle_exit_condition_witness :
    (tpms_protocol_decoder_ford_feed (fordInit true) false 208).1.parser_step ≠
      FordDecoderStep.Reset :=
  (C5_idle_exit_condition (fordInit true) (SMD3MA4Init true) false 208 rfl
    rfl).1.mpr ⟨rfl, by decide⟩

/-- C7: for every duration and level, each protocol classifier yields the
long event when the duration is within tolerance of the long period, else
the short event when within tolerance of the short period, else the
Manchester resynchronisation event; long is tested first, so it wins
whenever its window matches, overlap or not. -/
theorem C7_duration_classification (d : Nat) (level : Bool) :
    (DURATION_DIFF d tpms_protocol_ford_const.te_long <
        tpms_protocol_ford_const.te_delta →
      ford_level_and_duration_to_event level d =
        (if level then ManchesterEvent.longHigh else ManchesterEvent.longLow)) ∧
    (¬ DURATION_DIFF d tpms_protocol_ford_const.te_long <
        tpms_protocol_ford_const.te_delta →
      DURATION_DIFF d tpms_protocol_ford_const.te_short <
        tpms_protocol_ford_const.te_delta →
      ford_level_and_duration_to_event level d =
        (if level then ManchesterEvent.shortHigh else ManchesterEvent.shortLow)) ∧
    (¬ DURATION_DIFF d tpms_protocol_ford_const.te_long <
        tpms_protocol_ford_const.te_delta →
      ¬ DURATION_DIFF d tpms_protocol_ford_const.te_short <
        tpms_protocol_ford_const.te_delta →
      ford_level_and_duration_to_event level d = ManchesterEvent.reset) ∧
    (DURATION_DIFF d tpms_protocol_SMD3MA4_const.te_long <
        tpms_protocol_SMD3MA4_const.te_delta →
      SMD3MA4_level_and_duration_to_event level d =
        (if level then ManchesterEvent.longHigh else ManchesterEvent.longLow)) ∧
    (¬ DURATION_DIFF d tpms_protocol_SMD3MA4_const.te_long <
        tpms_protocol_SMD3MA4_const.te_delta →
      DURATION_DIFF d tpms_protocol_SMD3MA4_const.te_short <
        tpms_protocol_SMD3MA4_const.te_delta →
      SMD3MA4_level_and_duration_to_event level d =
        (if level then ManchesterEvent.shortHigh else ManchesterEvent.shortLow)) ∧
    (¬ DURATION_DIFF d tpms_protocol_SMD3MA4_const.te_long <
        tpms_protocol_SMD3MA4_const.te_delta →
      ¬ DURATION_DIFF d tpms_protocol_SMD3MA4_const.te_short <
        tpms_protocol_SMD3MA4_const.te_delta →
      SMD3MA4_level_and_duration_to_event level d = ManchesterEvent.reset) := by
  refine ⟨fun h1 => ?_, fun h1 h2 => ?_, fun h1 h2 => ?_,
    fun h1 => ?_, fun h1 h2 => ?_, fun h1 h2 => ?_⟩
  · simp [ford_level_and_duration_to_event, h1]
  · simp [ford_level_and_duration_to_event, h1, h2]
  · simp [ford_level_and_duration_to_event, h1, h2]
  · simp [SMD3MA4_level_and_duration_to_event, h1]
  · simp [SMD3MA4_level_and_duration_to_event, h1, h2]
  · simp [SMD3MA4_level_and_duration_to_event, h1, h2]

/-- The inductive invariant carrying the bit-count bound for the Ford
decoder: the count never exceeds 64, is zero throughout preamble
acquisition, and stays strictly below 64 while accumulating (a completed
frame immediately leaves the accumulating step). -/
def FordInv (s : TPMSProtocolDecoderFord) : Prop :=
  s.decode_count_bit ≤ 64 ∧
  (s.parser_step = FordDecoderStep.CheckPreamble → s.decode_count_bit = 0) ∧
  (s.parser_step = FordDecoderStep.DecoderData → s.decode_count_bit < 64)

/-- The switch of the Ford feed preserves the invariant. -/
theorem ford_feed_switch_inv (s : TPMSProtocolDecoderFord) (level : Bool)
    (duration : Nat) (bit : Bool) (h : FordInv s) :
    FordInv (ford_feed_switch s level duration bit).1 := by
  obtain ⟨h1, h2, h3⟩ := h
  cases hs : s.parser_step with
  | Reset =>
    simp only [ford_feed_switch, hs]
    split_ifs with hc
    · exact ⟨by simp, fun _ => rfl, by simp⟩
    · exact ⟨h1, h2, h3⟩
  | CheckPreamble =>
    have hc0 := h2 hs
    simp only [ford_feed_switch, hs]
    split_ifs with hb hpre
    · exact ⟨h1, by simp, by simp⟩
    · exact ⟨h1, by simp, fun _ => by simp [hc0]⟩
    · exact ⟨h1, fun _ => hc0, by simp [hs]⟩
  | DecoderData =>
    have hlt := h3 hs
    have hdc : (s.decode_count_bit + 1) % 2 ^ 16 = s.decode_count_bit + 1 :=
      Nat.mod_eq_of_lt (by omega)
    by_cases hfull : s.decode_count_bit + 1 =
        tpms_protocol_ford_const.min_count_bit_for_found
    · have h64 : s.decode_count_bit + 1 = 64 := by
        simpa [tpms_protocol_ford_const] using hfull
      simp only [ford_feed_switch, hs, hdc]
      rw [if_pos hfull]
      split_ifs <;> exact ⟨by simp [h64], by simp, by simp⟩
    · have h64 : s.decode_count_bit + 1 ≠ 64 := by
        simpa [tpms_protocol_ford_const] using hfull
      simp only [ford_feed_switch, hs, hdc]
      rw [if_neg hfull]
      exact ⟨by simp; omega, by simp [hs], fun _ => by simp; omega⟩
  | SaveDuration =>
    simp only [ford_feed_switch, hs]
    exact ⟨h1, h2, h3⟩
  | CheckDuration =>
    simp only [ford_feed_switch, hs]
    exact ⟨h1, h2, h3⟩

/-- One call of the Ford feed preserves the invariant. -/
theorem ford_feed_inv (s : TPMSProtocolDecoderFord) (level : Bool)
    (duration : Nat) (h : FordInv s) :
    FordInv (tpms_protocol_decoder_ford_feed s level duration).1 := by
  obtain ⟨h1, h2, h3⟩ := h
  unfold tpms_protocol_decoder_ford_feed
  split
  · exact ford_feed_switch_inv _ _ _ _ ⟨h1, h2, h3⟩
  · split
    · exact ford_feed_switch_inv _ _ _ _ ⟨h1, by simp, by simp⟩
    · rcases hm : manchester_advance s.manchester_saved_state
        (ford_level_and_duration_to_event level duration) with ⟨ms, ob⟩
      cases ob with
      | none => exact ⟨h1, h2, h3⟩
      | some b => exact ford_feed_switch_inv _ _ _ _ ⟨h1, h2, h3⟩

/-- The states a Ford decoder instance can reach: the freshly allocated
zeroed state, closed under feed and reset. -/
inductive FordReachable : TPMSProtocolDecoderFord → Prop where
  | init (cb : Bool) : FordReachable (fordInit cb)
  | feed (level : Bool) (duration : Nat) {s : TPMSProtocolDecoderFord} :
      FordReachable s →
      FordReachable (tpms_protocol_decoder_ford_feed s level duration).1
  | rst {s : TPMSProtocolDecoderFord} : FordReachable s →
      FordReachable (tpms_protocol_decoder_ford_reset s)

/-- Every reachable Ford decoder state satisfies the invariant. -/
theorem ford_reachable_inv (s : TPMSProtocolDecoderFord)
    (h : FordReachable s) : FordInv s := by
  induction h with
  | init cb => exact ⟨by simp [fordInit], by simp [fordInit], by simp [fordInit]⟩
  | feed level duration hs ih => exact ford_feed_inv _ _ _ ih
  | rst hs ih =>
    obtain ⟨h1, h2, h3⟩ := ih
    exact ⟨h1, by simp [tpms_protocol_decoder_ford_reset],
      by simp [tpms_protocol_decoder_ford_reset]⟩

/-- The inductive invariant carrying the bit-count bound for the SMD3MA4
decoder, with frame length 33. -/
def SMD3MA4Inv (s : TPMSProtocolDecoderSMD3MA4) : Prop :=
  s.decode_count_bit ≤ 33 ∧
  (s.parser_step = SMD3MA4DecoderStep.CheckPreamble → s.decode_count_bit = 0) ∧
  (s.parser_step = SMD3MA4DecoderStep.DecoderData → s.decode_count_bit < 33)

/-- The switch of the SMD3MA4 feed preserves the invariant. -/
theorem SMD3MA4_feed_switch_inv (s : TPMSProtocolDecoderSMD3MA4) (level : Bool)
    (duration : Nat) (bit : Bool) (h : SMD3MA4Inv s) :
    SMD3MA4Inv (SMD3MA4_feed_switch s level duration bit).1 := by
  obtain ⟨h1, h2, h3⟩ := h
  cases hs : s.parser_step with
  | Reset =>
    simp only [SMD3MA4_feed_switch, hs]
    split_ifs with hc
    · exact ⟨by simp, fun _ => rfl, by simp⟩
    · exact ⟨h1, h2, h3⟩
  | CheckPreamble =>
    have hc0 := h2 hs
    simp only [SMD3MA4_feed_switch, hs]
    split_ifs with hb hpre
    · exact ⟨h1, by simp, by simp⟩
    · exact ⟨h1, by simp, fun _ => by simp [hc0]⟩
    · exact ⟨h1, fun _ => hc0, by simp [hs]⟩
  | DecoderData =>
    have hlt := h3 hs
    have hdc : (s.decode_count_bit + 1) % 2 ^ 16 = s.decode_count_bit + 1 :=
      Nat.mod_eq_of_lt (by omega)
    by_cases hfull : s.decode_count_bit + 1 =
        tpms_protocol_SMD3MA4_const.min_count_bit_for_found
    · have h33 : s.decode_count_bit + 1 = 33 := by
        simpa [tpms_protocol_SMD3MA4_const] using hfull
      simp only [SMD3MA4_feed_switch, hs, hdc]
      rw [if_pos hfull]
      split_ifs <;> exact ⟨by simp [h33], by simp, by simp⟩
    · have h33 : s.decode_count_bit + 1 ≠ 33 := by
        simpa [tpms_protocol_SMD3MA4_const] using hfull
      simp only [SMD3MA4_feed_switch, hs, hdc]
      rw [if_neg hfull]
      exact ⟨by simp; omega, by simp [hs], fun _ => by simp; omega⟩
  | SaveDuration =>
    simp only [SMD3MA4_feed_switch, hs]
    exact ⟨h1, h2, h3⟩
  | CheckDuration =>
    simp only [SMD3MA4_feed_switch, hs]
    exact ⟨h1, h2, h3⟩

/-- One call of the SMD3MA4 feed preserves the invariant. -/
theorem SMD3MA4_feed_inv (s : TPMSProtocolDecoderSMD3MA4) (level : Bool)
    (duration : Nat) (h : SMD3MA4Inv s) :
    SMD3MA4Inv (tpms_protocol_decoder_SMD3MA4_feed s level duration).1 := by
  obtain ⟨h1, h2, h3⟩ := h
  unfold tpms_protocol_decoder_SMD3MA4_feed
  split
  · exact SMD3MA4_feed_switch_inv _ _ _ _ ⟨h1, h2, h3⟩
  · split
    · exact SMD3MA4_feed_switch_inv _ _ _ _ ⟨h1, by simp, by simp⟩
    · rcases hm : manchester_advance s.manchester_saved_state
        (SMD3MA4_level_and_duration_to_event level duration) with ⟨ms, ob⟩
      cases ob with
      | none => exact ⟨h1, h2, h3⟩
      | some b => exact SMD3MA4_feed_switch_inv _ _ _ _ ⟨h1, h2, h3⟩

/-- The states an SMD3MA4 decoder instance can reach: the freshly allocated
zeroed state, closed under feed and reset. -/
inductive SMD3MA4Reachable : TPMSProtocolDecoderSMD3MA4 → Prop where
  | init (cb : Bool) : SMD3MA4Reachable (SMD3MA4Init cb)
  | feed (level : Bool) (duration : Nat) {s : TPMSProtocolDecoderSMD3MA4} :
      SMD3MA4Reachable s →
      SMD3MA4Reachable (tpms_protocol_decoder_SMD3MA4_feed s level duration).1
  | rst {s : TPMSProtocolDecoderSMD3MA4} : SMD3MA4Reachable s →
      SMD3MA4Reachable (tpms_protocol_decoder_SMD3MA4_reset s)

/-- Every reachable SMD3MA4 decoder state satisfies the invariant. -/
theorem SMD3MA4_reachable_inv (s : TPMSProtocolDecoderSMD3MA4)
    (h : SMD3MA4Reachable s) : SMD3MA4Inv s := by
  induction h with
  | init cb =>
    exact ⟨by simp [SMD3MA4Init], by simp [SMD3MA4Init], by simp [SMD3MA4Init]⟩
  | feed level duration hs ih => exact SMD3MA4_feed_inv _ _ _ ih
  | rst hs ih =>
    obtain ⟨h1, h2, h3⟩ := ih
    exact ⟨h1, by simp [tpms_protocol_decoder_SMD3MA4_reset],
      by simp [tpms_protocol_decoder_SMD3MA4_reset]⟩

/-- When the Ford switch emits a record, the completing state holds exactly
64 bits and the phase has returned to Idle. -/
theorem ford_feed_switch_emits (s : TPMSProtocolDecoderFord) (level : Bool)
    (duration : Nat) (bit : Bool)
    (h : ((ford_feed_switch s level duration bit).2).isSome = true) :
    (ford_feed_switch s level duration bit).1.decode_count_bit = 64 ∧
    (ford_feed_switch s level duration bit).1.parser_step =
      FordDecoderStep.Reset := by
  cases hs : s.parser_step with
  | Reset =>
    simp only [ford_feed_switch, hs] at h ⊢
    split_ifs at h ⊢ <;> simp_all
  | CheckPreamble =>
    simp only [ford_feed_switch, hs] at h ⊢
    split_ifs at h ⊢ <;> simp_all
  | DecoderData =>
    simp only [ford_feed_switch, hs] at h ⊢
    split_ifs at h ⊢ with hfull hcrc hcb <;> simp_all [tpms_protocol_ford_const]
  | SaveDuration =>
    exact absurd h (by simp [ford_feed_switch, hs])
  | CheckDuration =>
    exact absurd h (by simp [ford_feed_switch, hs])

/-- When the SMD3MA4 switch emits a record, the completing state holds
exactly 33 bits and the phase has returned to Idle. -/
theorem SMD3MA4_feed_switch_emits (s : TPMSProtocolDecoderSMD3MA4)
    (level : Bool) (duration : Nat) (bit : Bool)
    (h : ((SMD3MA4_feed_switch s level duration bit).2).isSome = true) :
    (SMD3MA4_feed_switch s level duration bit).1.decode_count_bit = 33 ∧
    (SMD3MA4_feed_switch s level duration bit).1.parser_step =
      SMD3MA4DecoderStep.Reset := by
  cases hs : s.parser_step with
  | Reset =>
    simp only [SMD3MA4_feed_switch, hs] at h ⊢
    split_ifs at h ⊢ <;> simp_all
  | CheckPreamble =>
    simp only [SMD3MA4_feed_switch, hs] at h ⊢
    split_ifs at h ⊢ <;> simp_all
  | DecoderData =>
    simp only [SMD3MA4_feed_switch, hs] at h ⊢
    split_ifs at h ⊢ with hfull hcb <;> simp_all [tpms_protocol_SMD3MA4_const]
  | SaveDuration =>
    exact absurd h (by simp [SMD3MA4_feed_switch, hs])
  | CheckDuration =>
    exact absurd h (by simp [SMD3MA4_feed_switch, hs])

/-- When the Ford feed emits a record, the resulting state holds exactly 64
bits and the phase has returned to Idle. -/
theorem ford_feed_emits (s : TPMSProtocolDecoderFord) (level : Bool)
    (duration : Nat)
    (h : ((tpms_protocol_decoder_ford_feed s level duration).2).isSome = true) :
    (tpms_protocol_decoder_ford_feed s level duration).1.decode_count_bit = 64 ∧
    (tpms_protocol_decoder_ford_feed s level duration).1.parser_step =
      FordDecoderStep.Reset := by
  unfold tpms_protocol_decoder_ford_feed at h ⊢
  by_cases h0 : s.parser_step = FordDecoderStep.Reset
  · rw [if_pos h0] at h ⊢
    exact ford_feed_switch_emits _ _ _ _ h
  · rw [if_neg h0] at h ⊢
    by_cases hev : ford_level_and_duration_to_event level duration =
      ManchesterEvent.reset
    · rw [if_pos hev] at h ⊢
      exact ford_feed_switch_emits _ _ _ _ h
    · rw [if_neg hev] at h ⊢
      generalize manchester_advance s.manchester_saved_state
        (ford_level_and_duration_to_event level duration) = p at h ⊢
      obtain ⟨ms, ob⟩ := p
      cases ob with
      | none => exact absurd h (by simp)
      | some b => exact ford_feed_switch_emits _ _ _ _ h

/-- When the SMD3MA4 feed emits a record, the resulting state holds exactly
33 bits and the phase has returned to Idle. -/
theorem SMD3MA4_feed_emits (s : TPMSProtocolDecoderSMD3MA4) (level : Bool)
    (duration : Nat)
    (h : ((tpms_protocol_decoder_SMD3MA4_feed s level duration).2).isSome = true) :
    (tpms_protocol_decoder_SMD3MA4_feed s level duration).1.decode_count_bit
      = 33 ∧
    (tpms_protocol_decoder_SMD3MA4_feed s level duration).1.parser_step =
      SMD3MA4DecoderStep.Reset := by
  unfold tpms_protocol_decoder_SMD3MA4_feed at h ⊢
  by_cases h0 : s.parser_step = SMD3MA4DecoderStep.Reset
  · rw [if_pos h0] at h ⊢
    exact SMD3MA4_feed_switch_emits _ _ _ _ h
  · rw [if_neg h0] at h ⊢
    by_cases hev : SMD3MA4_level_and_duration_to_event level duration =
      ManchesterEvent.reset
    · rw [if_pos hev] at h ⊢
      exact SMD3MA4_feed_switch_emits _ _ _ _ h
    · rw [if_neg hev] at h ⊢
      generalize manchester_advance s.manchester_saved_state
        (SMD3MA4_level_and_duration_to_event level duration) = p at h ⊢
      obtain ⟨ms, ob⟩ := p
      cases ob with
      | none => exact absurd h (by simp)
      | some b => exact SMD3MA4_feed_switch_emits _ _ _ _ h

/-- A Ford feed that brings the accumulating phase to the full 64 bits
returns the phase to Idle, whatever the checksum outcome. -/
theorem ford_feed_data_completes (s : TPMSProtocolDecoderFord) (level : Bool)
    (duration : Nat) (hstep : s.parser_step = FordDecoderStep.DecoderData)
    (hlt : s.decode_count_bit < 64)
    (hc : (tpms_protocol_decoder_ford_feed s level duration).1.decode_count_bit
      = 64) :
    (tpms_protocol_decoder_ford_feed s level duration).1.parser_step =
      FordDecoderStep.Reset := by
  unfold tpms_protocol_decoder_ford_feed at hc ⊢
  rw [if_neg (by simp [hstep])] at hc ⊢
  by_cases hev : ford_level_and_duration_to_event level duration =
      ManchesterEvent.reset
  · rw [if_pos hev] at hc ⊢
    simp only [ford_feed_switch] at hc ⊢
    split_ifs at hc ⊢
    simp_all
  · rw [if_neg hev] at hc ⊢
    generalize manchester_advance s.manchester_saved_state
      (ford_level_and_duration_to_event level duration) = p at hc ⊢
    obtain ⟨ms, ob⟩ := p
    cases ob with
    | none => simp at hc; omega
    | some b =>
      simp only [ford_feed_switch, hstep] at hc ⊢
      split_ifs at hc ⊢ <;> simp_all [tpms_protocol_ford_const]

/-- An SMD3MA4 feed that brings the accumulating phase to the full 33 bits
returns the phase to Idle. -/
theorem SMD3MA4_feed_data_completes (s : TPMSProtocolDecoderSMD3MA4)
    (level : Bool) (duration : Nat)
    (hstep : s.parser_step = SMD3MA4DecoderStep.DecoderData)
    (hlt : s.decode_count_bit < 33)
    (hc : (tpms_protocol_decoder_SMD3MA4_feed s level duration).1.decode_count_bit
      = 33) :
    (tpms_protocol_decoder_SMD3MA4_feed s level duration).1.parser_step =
      SMD3MA4DecoderStep.Reset := by
  unfold tpms_protocol_decoder_SMD3MA4_feed at hc ⊢
  rw [if_neg (by simp [hstep])] at hc ⊢
  by_cases hev : SMD3MA4_level_and_duration_to_event level duration =
      ManchesterEvent.reset
  · rw [if_pos hev] at hc ⊢
    simp only [SMD3MA4_feed_switch] at hc ⊢
    split_ifs at hc ⊢
    simp_all
  · rw [if_neg hev] at hc ⊢
    generalize manchester_advance s.manchester_saved_state
      (SMD3MA4_level_and_duration_to_event level duration) = p at hc ⊢
    obtain ⟨ms, ob⟩ := p
    cases ob with
    | none => simp at hc; omega
    | some b =>
      simp only [SMD3MA4_feed_switch, hstep] at hc ⊢
      split_ifs at hc ⊢ <;> simp_all [tpms_protocol_SMD3MA4_const]

/-- C8: in every reachable state of either decoder the accumulated bit count
never exceeds the frame length (64 for Ford, 33 for SMD3MA4); a record is
emitted only by a feed whose resulting count equals the frame length with
the phase already back at Idle; and a feed that completes the accumulating
phase returns the phase to Idle whether validation succeeds or fails. -/
theorem C8_bit_count_bound_and_sole_trigger :
    (∀ s, FordReachable s → s.decode_count_bit ≤ 64) ∧
    (∀ s, SMD3MA4Reachable s → s.decode_count_bit ≤ 33) ∧
    (∀ s level duration,
      ((tpms_protocol_decoder_ford_feed s level duration).2).isSome = true →
        (tpms_protocol_decoder_ford_feed s level duration).1.decode_count_bit
            = 64 ∧
          (tpms_protocol_decoder_ford_feed s level duration).1.parser_step =
            FordDecoderStep.Reset) ∧
    (∀ s level duration,
      ((tpms_protocol_decoder_SMD3MA4_feed s level duration).2).isSome = true →
        (tpms_protocol_decoder_SMD3MA4_feed s level duration).1.decode_count_bit
            = 33 ∧
          (tpms_protocol_decoder_SMD3MA4_feed s level duration).1.parser_step =
            SMD3MA4DecoderStep.Reset) ∧
    (∀ s level duration, FordReachable s →
      s.parser_step = FordDecoderStep.DecoderData →
      (tpms_protocol_decoder_ford_feed s level duration).1.decode_count_bit
        = 64 →
      (tpms_protocol_decoder_ford_feed s level duration).1.parser_step =
        FordDecoderStep.Reset) ∧
    (∀ s level duration, SMD3MA4Reachable s →
      s.parser_step = SMD3MA4DecoderStep.DecoderData →
      (tpms_protocol_decoder_SMD3MA4_feed s level duration).1.decode_count_bit
        = 33 →
      (tpms_protocol_decoder_SMD3MA4_feed s level duration).1.parser_step =
        SMD3MA4DecoderStep.Reset) := by
  refine ⟨fun s h => (ford_reachable_inv s h).1,
    fun s h => (SMD3MA4_reachable_inv s h).1,
    fun s level duration h => ford_feed_emits s level duration h,
    fun s level duration h => SMD3MA4_feed_emits s level duration h,
    fun s level duration hr hstep hc => ?_,
    fun s level duration hr hstep hc => ?_⟩
  · exact ford_feed_data_completes s level duration hstep
      ((ford_reachable_inv s hr).2.2 hstep) hc
  · exact SMD3MA4_feed_data_completes s level duration hstep
      ((SMD3MA4_reachable_inv s hr).2.2 hstep) hc

/-- C9: the SMD3MA4 validator is an always-pass stub: in the accumulating
phase with 32 bits stored and a callback registered, any edge whose
Manchester advance recovers a bit completes the 33-bit frame and emits
exactly one record (the single some of the feed), unconditionally in the
frame content, with the phase returning to Idle. -/
theorem C9_SMD3MA4_always_pass (s : TPMSProtocolDecoderSMD3MA4) (level : Bool)
    (duration : Nat) (b : Bool)
    (hstep : s.parser_step = SMD3MA4DecoderStep.DecoderData)
    (hcb : s.has_callback = true)
    (hcount : s.decode_count_bit = 32)
    (hbit : (manchester_advance s.manchester_saved_state
      (SMD3MA4_level_and_duration_to_event level duration)).2 = some b) :
    (tpms_protocol_decoder_SMD3MA4_feed s level duration).2 =
      some (tpms_protocol_SMD3MA4_analyze
        { s.generic with
          data := (s.decode_data * 2 + (if b then 0 else 1)) % 2 ^ 64
          data_count_bit := 33 }) ∧
    (tpms_protocol_decoder_SMD3MA4_feed s level duration).1.parser_step =
      SMD3MA4DecoderStep.Reset := by
  have hev : SMD3MA4_level_and_duration_to_event level duration ≠
      ManchesterEvent.reset := by
    intro hq
    rw [hq] at hbit
    simp [manchester_advance] at hbit
  unfold tpms_protocol_decoder_SMD3MA4_feed
  rw [if_neg (by simp [hstep]), if_neg hev]
  generalize hm : manchester_advance s.manchester_saved_state
    (SMD3MA4_level_and_duration_to_event level duration) = p
  rw [hm] at hbit
  obtain ⟨ms, ob⟩ := p
  have hob : ob = some b := hbit
  subst hob
  cases b <;>
    norm_num [SMD3MA4_feed_switch, hstep, hcount, hcb,
      tpms_protocol_SMD3MA4_const]

/-- The SMD3MA4 decoder state one bit short of a full frame, used as the C9
witness input. -/
def c9State : TPMSProtocolDecoderSMD3MA4 :=
  { parser_step := .DecoderData, decode_data := 0, decode_count_bit := 32,
    manchester_saved_state := .start1, header_count := 3,
    generic := genericZero, has_callback := true }

/-- C9 witness: the concrete 120 microsecond low edge recovers the final bit
and the feed emits the analyzed record. -/
theorem C9_SMD3MA4_always_pass_witness :
    (tpms_protocol_decoder_SMD3MA4_feed c9State false 120).2 =
      some (tpms_protocol_SMD3MA4_analyze
        { c9State.generic with
          data := (c9State.decode_data * 2 + (if true then 0 else 1)) % 2 ^ 64
          data_count_bit := 33 }) :=
  (C9_SMD3MA4_always_pass c9State false 120 true rfl rfl rfl (by decide)).1

/-- C10: when a completing Ford frame fails the checksum, the stored generic
record is left untouched in every field, no record is emitted, and only the
parser phase falls back to Idle; get_string and serialize read that stored
record, so they keep reporting the previously accepted frame. -/
theorem C10_ford_crc_fail_preserves_generic (s : TPMSProtocolDecoderFord)
    (level : Bool) (duration : Nat) (b : Bool)
    (hstep : s.parser_step = FordDecoderStep.DecoderData)
    (hcount : s.decode_count_bit = 63)
    (hbit : (manchester_advance s.manchester_saved_state
      (ford_level_and_duration_to_event level duration)).2 = some b)
    (hcrc : tpms_protocol_ford_check_crc
      ((s.decode_data * 2 + (if b then 0 else 1)) % 2 ^ 64) = false) :
    (tpms_protocol_decoder_ford_feed s level duration).1.generic = s.generic ∧
    (tpms_protocol_decoder_ford_feed s level duration).2 = none ∧
    (tpms_protocol_decoder_ford_feed s level duration).1.parser_step =
      FordDecoderStep.Reset := by
  have hev : ford_level_and_duration_to_event level duration ≠
      ManchesterEvent.reset := by
    intro hq
    rw [hq] at hbit
    simp [manchester_advance] at hbit
  unfold tpms_protocol_decoder_ford_feed
  rw [if_neg (by simp [hstep]), if_neg hev]
  generalize hm : manchester_advance s.manchester_saved_state
    (ford_level_and_duration_to_event level duration) = p
  rw [hm] at hbit
  obtain ⟨ms, ob⟩ := p
  have hob : ob = some b := hbit
  subst hob
  cases b <;>
    simp_all [ford_feed_switch, hstep, hcount, tpms_protocol_ford_const]

/-- A generic record with a distinctive id, standing for a previously
accepted frame. -/
def c10Generic : TPMSBlockGeneric :=
  { genericZero with id := 77 }

/-- The Ford decoder state one bit short of a full frame whose completion
fails the checksum, used as the C10 witness input. -/
def c10State : TPMSProtocolDecoderFord :=
  { parser_step := .DecoderData, decode_data := 0, decode_count_bit := 63,
    manchester_saved_state := .mid1, header_count := 16,
    generic := c10Generic, has_callback := true }

/-- C10 witness: completing the frame 0x1, whose checksum fails, leaves the
stored record untouched and emits nothing. -/
theorem C10_ford_crc_fail_preserves_generic_witness :
    (tpms_protocol_decoder_ford_feed c10State true 104).1.generic =
      c10State.generic ∧
    (tpms_protocol_decoder_ford_feed c10State true 104).2 = none :=
  ⟨(C10_ford_crc_fail_preserves_generic c10State true 104 false rfl rfl
      (by decide) (by decide)).1,
    (C10_ford_crc_fail_preserves_generic c10State true 104 false rfl rfl
      (by decide) (by decide)).2.1⟩
